import Mathlib

/-
Verification of the lastuser form-validation core
(src/lastuserapp/forms/client.py) against its specification.

The Python forms are shallowly embedded: each validator becomes a pure
Lean function over explicit inputs and an explicit relational store
(lists of records standing for the database tables).  Database queries
(`Model.query.filter_by(...).first()`) become `List.find?`; raising a
`ValidationError` or appending a field error becomes returning
`Except.error` with the corresponding error kind.  Where the behaviour
of a validator is observable only through the order of database
accesses, the embedding additionally returns the list of store
operations performed, in execution order.
-/

set_option autoImplicit false

namespace Lastuser

/-- Error kinds of the validation layer, as named by the specification
(section 7).  `required` stands for the wtforms `Required` failure on an
absent field. -/
inductive VErr where
  | required
  | invalidName
  | invalidOwner
  | invalidContext
  | duplicateGlobal
  | duplicateScoped
  | duplicateResource
  | duplicateAction
  | malformedURI
  deriving DecidableEq, Repr

/-- An organization record; `userid` is its opaque identifier, the only
attribute the forms consult. -/
structure Org where
  userid : String
  deriving DecidableEq, Repr

/-- The acting user (`g.user` in the Python code): their own `userid`
and the list returned by `organizations_owned()`. -/
structure User where
  userid : String
  organizations_owned : List Org
  deriving DecidableEq, Repr

/-- The owner/context resolution result: the pair of attributes
`self.user` / `self.org` that `validate_client_owner` and
`validate_context` assign on success. -/
structure Resolved where
  user : Option User
  org : Option Org
  deriving DecidableEq, Repr

/-- Shared body of `RegisterClientForm.validate_client_owner` and
`PermissionForm.validate_context` (the two are textually identical in
the source except for the error message, passed here as `err`):
if the candidate identifier equals the acting user identifier the
context is that user; otherwise the owned organizations are filtered
for the identifier and exactly one match is required. -/
def authorize_as_owner (err : VErr) (actor : User) (cand : String) :
    Except VErr Resolved :=
  if cand = actor.userid then
    .ok ⟨some actor, none⟩
  else
    match actor.organizations_owned.filter (fun o => o.userid == cand) with
    | [o] => .ok ⟨none, some o⟩
    | _ => .error err

/-- Embedding of `RegisterClientForm.validate_client_owner`
(client.py lines 53-62). -/
def validate_client_owner (actor : User) (cand : String) :
    Except VErr Resolved :=
  authorize_as_owner VErr.invalidOwner actor cand

/-- Embedding of `PermissionForm.validate_context`
(client.py lines 114-123). -/
def validate_context (actor : User) (cand : String) :
    Except VErr Resolved :=
  authorize_as_owner VErr.invalidContext actor cand

/-- Modelled from the spec: `valid_username` lives in `lastuserapp.utils`,
which is not part of the supplied sources.  The spec describes it as a
lowercase single-token charset rule (lowercase alphanumerics plus limited
punctuation, no spaces; names with a space or an uppercase letter are
invalid). -/
def valid_username (s : String) : Bool :=
  s.data.all (fun c => (c.isAlpha && c.isLower) || c.isDigit || c == '-' || c == '_')

/-- A permission record as stored by the persistence layer.  Modelled from
the spec for the record shape (the models module is not in the supplied
sources): a permission is either global (`allusers`) or scoped to a user
or an organization context, identified here by the userid of that
principal. -/
structure Permission where
  id : Nat
  name : String
  allusers : Bool
  user : Option String
  org : Option String
  deriving DecidableEq, Repr

/-- The slice of the relational store that `PermissionForm.validate`
queries: the permissions table and the organizations table. -/
structure PermStore where
  permissions : List Permission
  organizations : List Org
  deriving Repr

/-- Store operations performed by the permission form, recorded in
execution order: context resolution (inside field validation), the
global-permission lookup, the organization lookup and the scoped
lookup. -/
inductive DbStep where
  | contextResolve
  | globalLookup
  | orgLookup
  | scopedLookup
  deriving DecidableEq, Repr

/-- Input to `PermissionForm`: the four fields plus the id of the record
being edited (`edit_obj.id`), `none` on create. -/
structure PermissionInput where
  name : String
  title : String
  context : String
  edit_id : Option Nat
  deriving Repr

/-- Embedding of `super(PermissionForm, self).validate()`: wtforms runs
the validator chain of every field in declaration order (`name`,
`title`, `description`, `context`).  `Required` fails on an empty field
and stops that field chain, so the inline `validate_context` runs
exactly when the context field is nonempty.  The first failing field in
declaration order supplies the error; the trace records that context
resolution ran. -/
def requiredErr (data : String) : Option VErr :=
  if data = "" then some VErr.required else none

def permFieldValidate (actor : User) (inp : PermissionInput) :
    Except VErr Resolved × List DbStep :=
  if inp.context = "" then
    (.error ((requiredErr inp.name <|> requiredErr inp.title).getD VErr.required), [])
  else
    match validate_context actor inp.context with
    | .error e =>
      (.error ((requiredErr inp.name <|> requiredErr inp.title).getD e),
        [DbStep.contextResolve])
    | .ok r =>
      match requiredErr inp.name <|> requiredErr inp.title with
      | some e => (.error e, [DbStep.contextResolve])
      | none => (.ok r, [DbStep.contextResolve])

/-- Scoped-conflict phase of `PermissionForm.validate` (client.py lines
100-110): when the context field equals the acting user identifier the
lookup is by (name, user); otherwise the organization is looked up by
userid and, when found, the lookup is by (name, org); a missing
organization yields no conflict.  A found record whose id differs from
`edit_id` is a duplicate. -/
def permScopedDecide (found : Option Permission) (edit_id : Option Nat)
    (r : Resolved) (steps : List DbStep) : Except VErr Resolved × List DbStep :=
  match found with
  | some p =>
    if some p.id ≠ edit_id then (.error VErr.duplicateScoped, steps)
    else (.ok r, steps)
  | none => (.ok r, steps)

def permScopedPhase (actor : User) (store : PermStore) (inp : PermissionInput)
    (r : Resolved) (steps : List DbStep) : Except VErr Resolved × List DbStep :=
  if inp.context = actor.userid then
    permScopedDecide
      (store.permissions.find? (fun p => p.name == inp.name && p.user == some actor.userid))
      inp.edit_id r (steps ++ [DbStep.scopedLookup])
  else
    match store.organizations.find? (fun o => o.userid == inp.context) with
    | some o =>
      permScopedDecide
        (store.permissions.find? (fun p => p.name == inp.name && p.org == some o.userid))
        inp.edit_id r (steps ++ [DbStep.orgLookup, DbStep.scopedLookup])
    | none => permScopedDecide none inp.edit_id r (steps ++ [DbStep.orgLookup])

/-- Embedding of `PermissionForm.validate` (client.py lines 81-112):
field validation first (including `validate_context`), then the charset
check on `name`, then the global-permission conflict lookup
(`filter_by(name, allusers=True)`), then the scoped conflict lookup.
Returns the outcome together with the store operations performed, in
order. -/
def permValidate (actor : User) (store : PermStore) (inp : PermissionInput) :
    Except VErr Resolved × List DbStep :=
  match permFieldValidate actor inp with
  | (.error e, steps) => (.error e, steps)
  | (.ok r, steps) =>
    if valid_username inp.name = false then
      (.error VErr.invalidName, steps)
    else
      match store.permissions.find? (fun p => p.name == inp.name && p.allusers) with
      | some p =>
        if some p.id ≠ inp.edit_id then
          (.error VErr.duplicateGlobal, steps ++ [DbStep.globalLookup])
        else permScopedPhase actor store inp r (steps ++ [DbStep.globalLookup])
      | none => permScopedPhase actor store inp r (steps ++ [DbStep.globalLookup])

/-- Modelled from the spec: creating a global (`allusers`) permission is
not performed by any form in the supplied sources (the permission form
context can only resolve to a user or an owned organization); the spec
data model says at most one global permission may exist with a given
name, so global creation charset-checks the name and checks only the
global namespace, then inserts the record. -/
def defineGlobalPermission (store : PermStore) (id : Nat) (name : String) :
    Except VErr PermStore :=
  if valid_username name = false then .error VErr.invalidName
  else
    match store.permissions.find? (fun p => p.name == name && p.allusers) with
    | some _ => .error VErr.duplicateGlobal
    | none =>
      .ok { store with
        permissions := store.permissions ++ [⟨id, name, true, none, none⟩] }

/-- A resource record: the forms consult only its id and name. -/
structure Resource where
  id : Nat
  name : String
  deriving DecidableEq, Repr

/-- A resource action record: id, name and the id of the owning
resource (the `resource` relationship). -/
structure ResourceAction where
  id : Nat
  name : String
  resource : Nat
  deriving DecidableEq, Repr

/-- Embedding of `ResourceForm.validate_name` (client.py lines 181-187):
charset check, then a global lookup of a resource with the same name; a
found record whose id differs from `self.edit_id` is a duplicate. -/
def resourceValidateName (store : List Resource) (edit_id : Option Nat)
    (name : String) : Except VErr Unit :=
  if valid_username name = false then .error VErr.invalidName
  else
    match store.find? (fun r => r.name == name) with
    | some r => if some r.id ≠ edit_id then .error VErr.duplicateResource else .ok ()
    | none => .ok ()

/-- Embedding of `ResourceActionForm.validate_name` (client.py lines
205-211): charset check, then a lookup of an action with the same name
under the same owning resource (`filter_by(name, resource=self.edit_resource)`);
a found record whose id differs from `self.edit_id` is a duplicate. -/
def actionValidateName (store : List ResourceAction) (edit_resource : Nat)
    (edit_id : Option Nat) (name : String) : Except VErr Unit :=
  if valid_username name = false then .error VErr.invalidName
  else
    match store.find? (fun a => a.name == name && a.resource == edit_resource) with
    | some a => if some a.id ≠ edit_id then .error VErr.duplicateAction else .ok ()
    | none => .ok ()

/-- Splits a character list at the first occurrence of the separator
`://`, returning the characters before it and after it, or `none` when
the separator does not occur. -/
def splitScheme : List Char → Option (List Char × List Char)
  | [] => none
  | ':' :: '/' :: '/' :: rest => some ([], rest)
  | c :: rest =>
    match splitScheme rest with
    | some (sch, r) => some (c :: sch, r)
    | none => none

/-- Modelled from the spec: the wtforms `URL(require_tld=False)` validator
is external library code not in the supplied sources; the spec only
requires that a present value parse as a well-formed URI (an alphabetic
scheme, the `://` separator, a nonempty remainder), with no TLD
requirement. -/
def wellFormedURI (s : String) : Bool :=
  match splitScheme s.data with
  | some (scheme, rest) => scheme ≠ [] && scheme.all Char.isAlpha && rest ≠ []
  | none => false

/-- A URL field with validators `[Required(), URL(require_tld=False)]`:
an empty value fails `Required`; a nonempty value must be a well-formed
URI. -/
def requiredURL (data : String) : Option VErr :=
  if data = "" then some VErr.required
  else if wellFormedURI data then none else some VErr.malformedURI

/-- A URL field with validators `[Optional(), URL(require_tld=False)]`:
an empty value stops the chain with no error; a nonempty value must be
a well-formed URI. -/
def optionalURL (data : String) : Option VErr :=
  if data = "" then none
  else if wellFormedURI data then none else some VErr.malformedURI

/-- Input to `RegisterClientForm`: the decoded field values.  An empty
string stands for an absent field. -/
structure ClientInput where
  title : String
  description : String
  client_owner : String
  website : String
  redirect_uri : String
  notification_uri : String
  iframe_uri : String
  resource_uri : String
  allow_any_login : Bool
  deriving Repr

/-- Embedding of `RegisterClientForm` validation (client.py lines 24-62),
first failing field in declaration order: `title` and `description` are
`Required`; `client_owner` is `Required` and then resolved by
`validate_client_owner`; `website` carries `Required` and the URL
validator; the four remaining URL fields carry `Optional` and the URL
validator.  On success the resolved owner context is returned. -/
def registerClientValidate (actor : User) (inp : ClientInput) :
    Except VErr Resolved :=
  if inp.title = "" then .error VErr.required
  else if inp.description = "" then .error VErr.required
  else if inp.client_owner = "" then .error VErr.required
  else
    match validate_client_owner actor inp.client_owner with
    | .error e => .error e
    | .ok r =>
      match requiredURL inp.website <|> optionalURL inp.redirect_uri <|>
        optionalURL inp.notification_uri <|> optionalURL inp.iframe_uri <|>
        optionalURL inp.resource_uri with
      | some e => .error e
      | none => .ok r

/-- A registered client application together with the set of permission
names currently granted to it.  Modelled from the spec: the client
model and the owner-reassignment handler are not in the supplied
sources; only the owner field description documents the cascade
(client.py lines 32-34, spec Contract D). -/
structure Client where
  owner : Resolved
  grantedPerms : List String
  deriving Repr

/-- Modelled from the spec: Contract D, owner reassignment.  Changing
the owner of a client revokes (clears) every permission previously
granted to it. -/
def reassignOwner (c : Client) (newOwner : Resolved) : Client :=
  { c with owner := newOwner, grantedPerms := [] }

/-- Permission lookup for a client: the set of permission names granted
to it. -/
def clientPermissions (c : Client) : List String :=
  c.grantedPerms

/-- The result of the scoped-conflict lookup of `PermissionForm.validate`,
isolated from the step trace: the record the form would treat as a
scoped conflict candidate. -/
def scopedLookupResult (actor : User) (store : PermStore) (inp : PermissionInput) :
    Option Permission :=
  if inp.context = actor.userid then
    store.permissions.find? (fun p => p.name == inp.name && p.user == some actor.userid)
  else
    match store.organizations.find? (fun o => o.userid == inp.context) with
    | some o => store.permissions.find? (fun p => p.name == inp.name && p.org == some o.userid)
    | none => none

theorem permScopedDecide_fst (found : Option Permission) (edit_id : Option Nat)
    (r : Resolved) (steps : List DbStep) :
    (permScopedDecide found edit_id r steps).1 =
      match found with
      | some p =>
        if some p.id ≠ edit_id then Except.error VErr.duplicateScoped else Except.ok r
      | none => Except.ok r := by
  rcases found with _ | p
  · rfl
  · by_cases h : some p.id = edit_id <;> simp [permScopedDecide, h]

theorem permScopedDecide_snd (found : Option Permission) (edit_id : Option Nat)
    (r : Resolved) (steps : List DbStep) :
    (permScopedDecide found edit_id r steps).2 = steps := by
  rcases found with _ | p
  · rfl
  · by_cases h : some p.id = edit_id <;> simp [permScopedDecide, h]

theorem permScopedPhase_result (actor : User) (store : PermStore)
    (inp : PermissionInput) (r : Resolved) (steps : List DbStep) :
    (permScopedPhase actor store inp r steps).1 =
      match scopedLookupResult actor store inp with
      | some p =>
        if some p.id ≠ inp.edit_id then Except.error VErr.duplicateScoped else Except.ok r
      | none => Except.ok r := by
  unfold permScopedPhase scopedLookupResult
  split
  · exact permScopedDecide_fst _ _ _ _
  · split
    · exact permScopedDecide_fst _ _ _ _
    · exact permScopedDecide_fst _ _ _ _

theorem permScopedPhase_steps (actor : User) (store : PermStore)
    (inp : PermissionInput) (r : Resolved) (steps : List DbStep) :
    (permScopedPhase actor store inp r steps).2 = steps ++ [DbStep.scopedLookup] ∨
    (permScopedPhase actor store inp r steps).2 =
      steps ++ [DbStep.orgLookup, DbStep.scopedLookup] ∨
    (permScopedPhase actor store inp r steps).2 = steps ++ [DbStep.orgLookup] := by
  unfold permScopedPhase
  split
  · exact Or.inl (permScopedDecide_snd _ _ _ _)
  · split
    · exact Or.inr (Or.inl (permScopedDecide_snd _ _ _ _))
    · exact Or.inr (Or.inr (permScopedDecide_snd _ _ _ _))

theorem permFieldValidate_steps (actor : User) (inp : PermissionInput) :
    (permFieldValidate actor inp).2 = [] ∨
    (permFieldValidate actor inp).2 = [DbStep.contextResolve] := by
  unfold permFieldValidate
  split
  · exact Or.inl rfl
  · split
    · exact Or.inr rfl
    · split
      · exact Or.inr rfl
      · exact Or.inr rfl

theorem permFieldValidate_ok (actor : User) (inp : PermissionInput) (r : Resolved)
    (steps : List DbStep) (h : permFieldValidate actor inp = (.ok r, steps)) :
    steps = [DbStep.contextResolve] := by
  unfold permFieldValidate at h
  split at h
  · simp at h
  · split at h
    · simp at h
    · split at h
      · simp at h
      · rw [Prod.mk.injEq] at h
        exact h.2.symm

theorem authorize_as_owner_self (err : VErr) (actor : User) (cand : String)
    (h : cand = actor.userid) :
    authorize_as_owner err actor cand = .ok ⟨some actor, none⟩ := by
  unfold authorize_as_owner
  rw [if_pos h]

theorem authorize_as_owner_org (err : VErr) (actor : User) (cand : String) (o : Org)
    (h : cand ≠ actor.userid)
    (ho : actor.organizations_owned.filter (fun g => g.userid == cand) = [o]) :
    authorize_as_owner err actor cand = .ok ⟨none, some o⟩ := by
  unfold authorize_as_owner
  rw [if_neg h, ho]

theorem authorize_as_owner_reject (err : VErr) (actor : User) (cand : String)
    (h : cand ≠ actor.userid)
    (hlen : (actor.organizations_owned.filter (fun g => g.userid == cand)).length ≠ 1) :
    authorize_as_owner err actor cand = .error err := by
  unfold authorize_as_owner
  rw [if_neg h]
  rcases hl : actor.organizations_owned.filter (fun g => g.userid == cand) with _ | ⟨o, _ | ⟨o2, t⟩⟩
  · rw [hl]
  · exact absurd (by rw [hl]; rfl) hlen
  · rw [hl]

/-- Claim C1: for every acting user and candidate owner identifier, if the
identifier equals the acting user identifier, both `validate_client_owner`
and `validate_context` resolve to that user with no organization;
otherwise, if the owned-organizations filter yields exactly one
organization with that identifier, both resolve to that organization;
in every other case (filter length not one) both reject, with
`invalidOwner` and `invalidContext` respectively, and no context is
produced. -/
theorem C1_ownership_resolution (actor : User) (cand : String) :
    (cand = actor.userid →
      validate_client_owner actor cand = .ok ⟨some actor, none⟩ ∧
      validate_context actor cand = .ok ⟨some actor, none⟩) ∧
    (cand ≠ actor.userid →
      ∀ o, actor.organizations_owned.filter (fun g => g.userid == cand) = [o] →
        validate_client_owner actor cand = .ok ⟨none, some o⟩ ∧
        validate_context actor cand = .ok ⟨none, some o⟩) ∧
    (cand ≠ actor.userid →
      (actor.organizations_owned.filter (fun g => g.userid == cand)).length ≠ 1 →
        validate_client_owner actor cand = .error VErr.invalidOwner ∧
        validate_context actor cand = .error VErr.invalidContext) :=
  ⟨fun h => ⟨authorize_as_owner_self _ _ _ h, authorize_as_owner_self _ _ _ h⟩,
   fun h o ho => ⟨authorize_as_owner_org _ _ _ o h ho, authorize_as_owner_org _ _ _ o h ho⟩,
   fun h hlen => ⟨authorize_as_owner_reject _ _ _ h hlen,
     authorize_as_owner_reject _ _ _ h hlen⟩⟩

/-- Witness for C1 at a concrete user owning one organization: resolving
the own userid yields the user context, resolving the owned organization
yields the organization context, and resolving an unowned identifier is
rejected. -/
theorem C1_ownership_resolution_witness :
    validate_client_owner ⟨"u1", [⟨"o1"⟩]⟩ "u1" = .ok ⟨some ⟨"u1", [⟨"o1"⟩]⟩, none⟩ ∧
    validate_context ⟨"u1", [⟨"o1"⟩]⟩ "o1" = .ok ⟨none, some ⟨"o1"⟩⟩ ∧
    validate_client_owner ⟨"u1", [⟨"o1"⟩]⟩ "o2" = .error VErr.invalidOwner :=
  ⟨((C1_ownership_resolution ⟨"u1", [⟨"o1"⟩]⟩ "u1").1 rfl).1,
   ((C1_ownership_resolution ⟨"u1", [⟨"o1"⟩]⟩ "o1").2.1 (by decide) ⟨"o1"⟩ rfl).2,
   ((C1_ownership_resolution ⟨"u1", [⟨"o1"⟩]⟩ "o2").2.2 (by decide) (by decide)).1⟩

/-- Claim C10: whenever owner/context resolution succeeds, in client
registration or in permission definition, the resolved record has
exactly one of the user and the organization set: either the user is
present and the organization is `none`, or the user is `none` and the
organization is present. -/
theorem C10_exactly_one_principal (actor : User) (cand : String) (r : Resolved)
    (h : validate_client_owner actor cand = .ok r ∨
      validate_context actor cand = .ok r) :
    (∃ u, r.user = some u ∧ r.org = none) ∨
    (∃ o, r.user = none ∧ r.org = some o) := by
  have key : ∀ err : VErr, authorize_as_owner err actor cand = .ok r →
      (∃ u, r.user = some u ∧ r.org = none) ∨
      (∃ o, r.user = none ∧ r.org = some o) := by
    intro err he
    unfold authorize_as_owner at he
    split at he
    · rcases he with ⟨⟩
      exact Or.inl ⟨actor, rfl, rfl⟩
    · split at he
      · rcases he with ⟨⟩
        exact Or.inr ⟨_, rfl, rfl⟩
      · cases he
  rcases h with h | h
  · exact key VErr.invalidOwner h
  · exact key VErr.invalidContext h

/-- Witness for C10: the resolution of the own userid of a concrete user
succeeds and satisfies the exactly-one-principal property. -/
theorem C10_exactly_one_principal_witness :
    (∃ u, (Resolved.mk (some ⟨"u1", []⟩) none).user = some u ∧
      (Resolved.mk (some ⟨"u1", []⟩) none).org = none) ∨
    (∃ o, (Resolved.mk (some ⟨"u1", []⟩) none).user = none ∧
      (Resolved.mk (some ⟨"u1", []⟩) none).org = some o) :=
  C10_exactly_one_principal ⟨"u1", []⟩ "u1" ⟨some ⟨"u1", []⟩, none⟩ (Or.inl rfl)

/-- Counterexample to claim C2 at a concrete input: creating the global
permission "admin" on an empty store succeeds, but validating a scoped
permission named "admin" under organization "o1", owned by the acting
user "u1", does not succeed: it is rejected with `duplicateGlobal`.
This refutes the claim that both creations succeed. -/
theorem C2_separate_namespaces_counterexample :
    defineGlobalPermission ⟨[], [⟨"o1"⟩]⟩ 1 "admin" =
      .ok ⟨[⟨1, "admin", true, none, none⟩], [⟨"o1"⟩]⟩ ∧
    (permValidate ⟨"u1", [⟨"o1"⟩]⟩ ⟨[⟨1, "admin", true, none, none⟩], [⟨"o1"⟩]⟩
      ⟨"admin", "Admin", "o1", none⟩).1 = .error VErr.duplicateGlobal :=
  ⟨rfl, rfl⟩

/-- Claim C2 as amended: creating a global permission named "admin" on an
empty store succeeds; a subsequent scoped permission named "admin" under
a specific organization is rejected with `duplicateGlobal` (the
global-conflict check applies to scoped creations, so global and scoped
permissions do not form separate namespaces for creation); and a second
global "admin" is also rejected with `duplicateGlobal`. -/
theorem C2_global_namespace_blocks_scoped :
    defineGlobalPermission ⟨[], [⟨"o1"⟩]⟩ 1 "admin" =
      .ok ⟨[⟨1, "admin", true, none, none⟩], [⟨"o1"⟩]⟩ ∧
    (permValidate ⟨"u1", [⟨"o1"⟩]⟩ ⟨[⟨1, "admin", true, none, none⟩], [⟨"o1"⟩]⟩
      ⟨"admin", "Admin", "o1", none⟩).1 = .error VErr.duplicateGlobal ∧
    defineGlobalPermission ⟨[⟨1, "admin", true, none, none⟩], [⟨"o1"⟩]⟩ 2 "admin" =
      .error VErr.duplicateGlobal :=
  ⟨rfl, rfl, rfl⟩

theorem permValidate_fieldError (actor : User) (store : PermStore) (inp : PermissionInput)
    (e : VErr) (steps : List DbStep)
    (hf : permFieldValidate actor inp = (.error e, steps)) :
    permValidate actor store inp = (.error e, steps) := by
  unfold permValidate
  rw [hf]

theorem permValidate_invalidName (actor : User) (store : PermStore) (inp : PermissionInput)
    (r : Resolved) (steps : List DbStep)
    (hf : permFieldValidate actor inp = (.ok r, steps))
    (hn : valid_username inp.name = false) :
    permValidate actor store inp = (.error VErr.invalidName, steps) := by
  unfold permValidate
  rw [hf]
  simp only [hn, if_pos]

theorem permValidate_globalDup (actor : User) (store : PermStore) (inp : PermissionInput)
    (r : Resolved) (steps : List DbStep) (p : Permission)
    (hf : permFieldValidate actor inp = (.ok r, steps))
    (hn : valid_username inp.name = true)
    (hg : store.permissions.find? (fun q => q.name == inp.name && q.allusers) = some p)
    (he : some p.id ≠ inp.edit_id) :
    permValidate actor store inp =
      (.error VErr.duplicateGlobal, steps ++ [DbStep.globalLookup]) := by
  unfold permValidate
  rw [hf]
  simp only [hn, hg]
  rw [if_neg (by simp), if_pos he]

theorem permValidate_globalNone (actor : User) (store : PermStore) (inp : PermissionInput)
    (r : Resolved) (steps : List DbStep)
    (hf : permFieldValidate actor inp = (.ok r, steps))
    (hn : valid_username inp.name = true)
    (hg : store.permissions.find? (fun q => q.name == inp.name && q.allusers) = none) :
    permValidate actor store inp =
      permScopedPhase actor store inp r (steps ++ [DbStep.globalLookup]) := by
  unfold permValidate
  rw [hf]
  simp only [hn, hg]
  rw [if_neg (by simp)]

theorem permValidate_globalSelf (actor : User) (store : PermStore) (inp : PermissionInput)
    (r : Resolved) (steps : List DbStep) (p : Permission)
    (hf : permFieldValidate actor inp = (.ok r, steps))
    (hn : valid_username inp.name = true)
    (hg : store.permissions.find? (fun q => q.name == inp.name && q.allusers) = some p)
    (he : ¬ some p.id ≠ inp.edit_id) :
    permValidate actor store inp =
      permScopedPhase actor store inp r (steps ++ [DbStep.globalLookup]) := by
  unfold permValidate
  rw [hf]
  simp only [hn, hg]
  rw [if_neg (by simp), if_neg he]

/-- Counterexample to claim C3 at a concrete input: for the acting user
"u1" owning organization "o1", a permission input whose name "Bad Name"
fails the charset check but whose context "o1" is valid is rejected with
`invalidName`, yet the recorded operation trace shows that context
resolution was performed before the charset check ran, refuting the
claim that a charset failure short-circuits before context/organization
resolution. -/
theorem C3_order_counterexample :
    valid_username "Bad Name" = false ∧
    permValidate ⟨"u1", [⟨"o1"⟩]⟩ ⟨[], [⟨"o1"⟩]⟩ ⟨"Bad Name", "T", "o1", none⟩ =
      (.error VErr.invalidName, [DbStep.contextResolve]) :=
  ⟨rfl, rfl⟩

/-- Claim C3 as amended: context resolution is performed during field
validation, before the charset check; a name failing the charset check
still short-circuits before every permission-store lookup (the trace
contains no global, organization or scoped lookup), and the
global-permission conflict lookup always precedes the scoped-permission
conflict lookup (every possible trace lists `globalLookup` before
`orgLookup` and `scopedLookup`). -/
theorem C3_validation_order (actor : User) (store : PermStore) (inp : PermissionInput) :
    (∀ r steps, permFieldValidate actor inp = (.ok r, steps) →
      valid_username inp.name = false →
      permValidate actor store inp = (.error VErr.invalidName, steps) ∧
      DbStep.globalLookup ∉ steps ∧ DbStep.orgLookup ∉ steps ∧
      DbStep.scopedLookup ∉ steps) ∧
    ((permValidate actor store inp).2 = [] ∨
     (permValidate actor store inp).2 = [DbStep.contextResolve] ∨
     (permValidate actor store inp).2 = [DbStep.contextResolve, DbStep.globalLookup] ∨
     (permValidate actor store inp).2 =
       [DbStep.contextResolve, DbStep.globalLookup, DbStep.scopedLookup] ∨
     (permValidate actor store inp).2 =
       [DbStep.contextResolve, DbStep.globalLookup, DbStep.orgLookup] ∨
     (permValidate actor store inp).2 =
       [DbStep.contextResolve, DbStep.globalLookup, DbStep.orgLookup,
         DbStep.scopedLookup]) := by
  constructor
  · intro r steps hf hn
    have hone := permFieldValidate_ok actor inp r steps hf
    subst hone
    exact ⟨permValidate_invalidName actor store inp r _ hf hn, by decide, by decide,
      by decide⟩
  · rcases hf : permFieldValidate actor inp with ⟨res, steps⟩
    have hsteps := permFieldValidate_steps actor inp
    rw [hf] at hsteps
    rcases res with e | r
    · rw [permValidate_fieldError actor store inp e steps hf]
      rcases hsteps with hs | hs
      · exact Or.inl hs
      · exact Or.inr (Or.inl hs)
    · have hone : steps = [DbStep.contextResolve] :=
        permFieldValidate_ok actor inp r steps hf
      subst hone
      rcases hn : valid_username inp.name with _ | _
      · rw [permValidate_invalidName actor store inp r _ hf hn]
        exact Or.inr (Or.inl rfl)
      · have hph := permScopedPhase_steps actor store inp r
          ([DbStep.contextResolve] ++ [DbStep.globalLookup])
        rcases hg : store.permissions.find? (fun q => q.name == inp.name && q.allusers)
          with _ | p
        · rw [permValidate_globalNone actor store inp r _ hf hn hg]
          rcases hph with hp | hp | hp <;> rw [hp] <;> simp
        · by_cases he : some p.id ≠ inp.edit_id
          · rw [permValidate_globalDup actor store inp r _ p hf hn hg he]
            exact Or.inr (Or.inr (Or.inl rfl))
          · rw [permValidate_globalSelf actor store inp r _ p hf hn hg he]
            rcases hph with hp | hp | hp <;> rw [hp] <;> simp

/-- Witness for the amended C3 at a concrete input: with name "Bad Name"
(charset failure) and valid context "o1", validation stops with
`invalidName` and the trace holds none of the three permission-store
lookups; the trace of this run is also one of the globally-ordered
shapes. -/
theorem C3_validation_order_witness :
    (permValidate ⟨"u1", [⟨"o1"⟩]⟩ ⟨[], [⟨"o1"⟩]⟩ ⟨"Bad Name", "T", "o1", none⟩ =
      (.error VErr.invalidName, [DbStep.contextResolve]) ∧
     DbStep.globalLookup ∉ [DbStep.contextResolve] ∧
     DbStep.orgLookup ∉ [DbStep.contextResolve] ∧
     DbStep.scopedLookup ∉ [DbStep.contextResolve]) ∧
    ((permValidate ⟨"u1", [⟨"o1"⟩]⟩ ⟨[], [⟨"o1"⟩]⟩ ⟨"Bad Name", "T", "o1", none⟩).2 = [] ∨
     (permValidate ⟨"u1", [⟨"o1"⟩]⟩ ⟨[], [⟨"o1"⟩]⟩ ⟨"Bad Name", "T", "o1", none⟩).2 =
       [DbStep.contextResolve] ∨
     (permValidate ⟨"u1", [⟨"o1"⟩]⟩ ⟨[], [⟨"o1"⟩]⟩ ⟨"Bad Name", "T", "o1", none⟩).2 =
       [DbStep.contextResolve, DbStep.globalLookup] ∨
     (permValidate ⟨"u1", [⟨"o1"⟩]⟩ ⟨[], [⟨"o1"⟩]⟩ ⟨"Bad Name", "T", "o1", none⟩).2 =
       [DbStep.contextResolve, DbStep.globalLookup, DbStep.scopedLookup] ∨
     (permValidate ⟨"u1", [⟨"o1"⟩]⟩ ⟨[], [⟨"o1"⟩]⟩ ⟨"Bad Name", "T", "o1", none⟩).2 =
       [DbStep.contextResolve, DbStep.globalLookup, DbStep.orgLookup] ∨
     (permValidate ⟨"u1", [⟨"o1"⟩]⟩ ⟨[], [⟨"o1"⟩]⟩ ⟨"Bad Name", "T", "o1", none⟩).2 =
       [DbStep.contextResolve, DbStep.globalLookup, DbStep.orgLookup,
         DbStep.scopedLookup]) :=
  ⟨(C3_validation_order ⟨"u1", [⟨"o1"⟩]⟩ ⟨[], [⟨"o1"⟩]⟩ ⟨"Bad Name", "T", "o1", none⟩).1
      ⟨none, some ⟨"o1"⟩⟩ [DbStep.contextResolve] rfl rfl,
   (C3_validation_order ⟨"u1", [⟨"o1"⟩]⟩ ⟨[], [⟨"o1"⟩]⟩ ⟨"Bad Name", "T", "o1", none⟩).2⟩

/-- Claim C4: for every client application and every new owner, changing
the owner of the client clears every permission previously granted to
it: a subsequent permission lookup for that client returns the empty
set. -/
theorem C4_owner_reassignment_cascade (c : Client) (newOwner : Resolved) :
    clientPermissions (reassignOwner c newOwner) = [] :=
  rfl

/-- Claim C5: under valid fields, a charset-valid name and no global
conflict, a creation (no `edit_id`) whose scoped lookup finds an
existing permission with the same name under the same resolved context
is rejected with `duplicateScoped`, while a definition whose scoped
lookup finds nothing (in particular, the same name under a different
resolved context) succeeds. -/
theorem C5_scoped_uniqueness (actor : User) (store : PermStore) (inp : PermissionInput)
    (r : Resolved) (steps : List DbStep)
    (hf : permFieldValidate actor inp = (.ok r, steps))
    (hn : valid_username inp.name = true)
    (hg : store.permissions.find? (fun q => q.name == inp.name && q.allusers) = none) :
    (∀ p, scopedLookupResult actor store inp = some p → inp.edit_id = none →
      (permValidate actor store inp).1 = .error VErr.duplicateScoped) ∧
    (scopedLookupResult actor store inp = none →
      (permValidate actor store inp).1 = .ok r) := by
  have hv := permValidate_globalNone actor store inp r steps hf hn hg
  have hres := permScopedPhase_result actor store inp r (steps ++ [DbStep.globalLookup])
  constructor
  · intro p hp he
    rw [hv, hres, hp, he]
    simp
  · intro hp
    rw [hv, hres, hp]

/-- Witness for C5 with user "u1" owning organization "o1" and a store
holding the scoped permission "x" under "o1": creating "x" under "o1"
again is rejected with `duplicateScoped`, while creating "x" under the
user context "u1" succeeds. -/
theorem C5_scoped_uniqueness_witness :
    (permValidate ⟨"u1", [⟨"o1"⟩]⟩ ⟨[⟨1, "x", false, none, some "o1"⟩], [⟨"o1"⟩]⟩
      ⟨"x", "T", "o1", none⟩).1 = .error VErr.duplicateScoped ∧
    (permValidate ⟨"u1", [⟨"o1"⟩]⟩ ⟨[⟨1, "x", false, none, some "o1"⟩], [⟨"o1"⟩]⟩
      ⟨"x", "T", "u1", none⟩).1 =
      .ok ⟨some ⟨"u1", [⟨"o1"⟩]⟩, none⟩ :=
  ⟨(C5_scoped_uniqueness ⟨"u1", [⟨"o1"⟩]⟩ ⟨[⟨1, "x", false, none, some "o1"⟩], [⟨"o1"⟩]⟩
      ⟨"x", "T", "o1", none⟩ ⟨none, some ⟨"o1"⟩⟩ [DbStep.contextResolve] rfl rfl rfl).1
      ⟨1, "x", false, none, some "o1"⟩ rfl rfl,
   (C5_scoped_uniqueness ⟨"u1", [⟨"o1"⟩]⟩ ⟨[⟨1, "x", false, none, some "o1"⟩], [⟨"o1"⟩]⟩
      ⟨"x", "T", "u1", none⟩ ⟨some ⟨"u1", [⟨"o1"⟩]⟩, none⟩ [DbStep.contextResolve]
      rfl rfl rfl).2 rfl⟩

/-- Claim C6: editing an existing permission, resource or resource action
under its own id as `edit_id`, with its name unchanged, succeeds: every
uniqueness lookup excludes the record whose id equals `edit_id`. -/
theorem C6_self_edit_no_conflict :
    (∀ (actor : User) (store : PermStore) (inp : PermissionInput) (r : Resolved)
        (steps : List DbStep) (e : Nat),
      permFieldValidate actor inp = (.ok r, steps) →
      valid_username inp.name = true →
      inp.edit_id = some e →
      (∀ p, store.permissions.find? (fun q => q.name == inp.name && q.allusers) = some p →
        p.id = e) →
      (∀ p, scopedLookupResult actor store inp = some p → p.id = e) →
      (permValidate actor store inp).1 = .ok r) ∧
    (∀ (store : List Resource) (name : String) (e : Nat),
      valid_username name = true →
      (∀ r, store.find? (fun q => q.name == name) = some r → r.id = e) →
      resourceValidateName store (some e) name = .ok ()) ∧
    (∀ (store : List ResourceAction) (resid : Nat) (name : String) (e : Nat),
      valid_username name = true →
      (∀ a, store.find? (fun q => q.name == name && q.resource == resid) = some a →
        a.id = e) →
      actionValidateName store resid (some e) name = .ok ()) := by
  refine ⟨?_, ?_, ?_⟩
  · intro actor store inp r steps e hf hn hedit hall hscoped
    have hres := permScopedPhase_result actor store inp r (steps ++ [DbStep.globalLookup])
    have hscase : ∀ h2 : List DbStep,
        (permScopedPhase actor store inp r (steps ++ [DbStep.globalLookup])).1 = .ok r := by
      intro _
      rw [hres]
      rcases hp : scopedLookupResult actor store inp with _ | p
      · rfl
      · have hpe := hscoped p hp
        simp [hpe, hedit]
    rcases hg : store.permissions.find? (fun q => q.name == inp.name && q.allusers)
      with _ | p
    · rw [permValidate_globalNone actor store inp r steps hf hn hg]
      exact hscase []
    · have hid : ¬ some p.id ≠ inp.edit_id := by
        rw [hall p hg, hedit]
        simp
      rw [permValidate_globalSelf actor store inp r steps p hf hn hg hid]
      exact hscase []
  · intro store name e hn hall
    unfold resourceValidateName
    rw [hn, if_neg (by simp)]
    rcases hfind : store.find? (fun q => q.name == name) with _ | r
    · rw [hfind]
    · have hre := hall r hfind
      rw [hfind]
      simp [hre]
  · intro store resid name e hn hall
    unfold actionValidateName
    rw [hn, if_neg (by simp)]
    rcases hfind : store.find? (fun q => q.name == name && q.resource == resid) with _ | a
    · rw [hfind]
    · have hae := hall a hfind
      rw [hfind]
      simp [hae]

/-- Witness for C6: editing permission 1 ("x" under organization "o1"),
resource 1 ("billing") and action 1 ("write" under resource 1) under
their own ids, names unchanged, all succeed. -/
theorem C6_self_edit_no_conflict_witness :
    (permValidate ⟨"u1", [⟨"o1"⟩]⟩ ⟨[⟨1, "x", false, none, some "o1"⟩], [⟨"o1"⟩]⟩
      ⟨"x", "T", "o1", some 1⟩).1 = .ok ⟨none, some ⟨"o1"⟩⟩ ∧
    resourceValidateName [⟨1, "billing"⟩] (some 1) "billing" = .ok () ∧
    actionValidateName [⟨1, "write", 1⟩] 1 (some 1) "write" = .ok () :=
  ⟨C6_self_edit_no_conflict.1 ⟨"u1", [⟨"o1"⟩]⟩
      ⟨[⟨1, "x", false, none, some "o1"⟩], [⟨"o1"⟩]⟩ ⟨"x", "T", "o1", some 1⟩
      ⟨none, some ⟨"o1"⟩⟩ [DbStep.contextResolve] 1 rfl rfl rfl
      (by intro p hp; cases hp) (by intro p hp; rcases hp with ⟨⟩; rfl),
   C6_self_edit_no_conflict.2.1 [⟨1, "billing"⟩] "billing" 1 rfl
      (by intro r hr; rcases hr with ⟨⟩; rfl),
   C6_self_edit_no_conflict.2.2 [⟨1, "write", 1⟩] 1 "write" 1 rfl
      (by intro a ha; rcases ha with ⟨⟩; rfl)⟩

/-- Claim C7: resource action name uniqueness is scoped to the owning
resource: a definition whose per-resource lookup finds nothing succeeds
(in particular the same action name under a different resource), while
a definition whose per-resource lookup finds an action with a different
id than `edit_id` is rejected with `duplicateAction`. -/
theorem C7_action_uniqueness_per_resource (store : List ResourceAction) (name : String)
    (r1 r2 : Nat) :
    (valid_username name = true →
      store.find? (fun a => a.name == name && a.resource == r1) = none →
      actionValidateName store r1 none name = .ok ()) ∧
    (∀ a edit_id, valid_username name = true →
      store.find? (fun b => b.name == name && b.resource == r2) = some a →
      some a.id ≠ edit_id →
      actionValidateName store r2 edit_id name = .error VErr.duplicateAction) := by
  constructor
  · intro hn hfind
    unfold actionValidateName
    rw [hn, if_neg (by simp), hfind]
  · intro a edit_id hn hfind hne
    unfold actionValidateName
    rw [hn, if_neg (by simp), hfind]
    simp [hne]

/-- Witness for C7 with resources 1 ("billing") and 2 ("profile") and a
store holding action "read" under resource 1: defining "read" under
resource 2 succeeds; defining a second "read" under resource 1 is
rejected with `duplicateAction`. -/
theorem C7_action_uniqueness_per_resource_witness :
    actionValidateName [⟨1, "read", 1⟩] 2 none "read" = .ok () ∧
    actionValidateName [⟨1, "read", 1⟩] 1 none "read" = .error VErr.duplicateAction :=
  ⟨(C7_action_uniqueness_per_resource [⟨1, "read", 1⟩] "read" 2 1).1 rfl rfl,
   (C7_action_uniqueness_per_resource [⟨1, "read", 1⟩] "read" 2 1).2 ⟨1, "read", 1⟩
      none rfl rfl (by simp)⟩

/-- Counterexample to claim C8 at a concrete input: defining an action
named "read" under resource 7, with no existing actions, is accepted by
the action-definition operation, refuting the claim that an explicit
action named "read" is never accepted. -/
theorem C8_read_counterexample :
    actionValidateName [] 7 none "read" = .ok () :=
  rfl

/-- Claim C8 as amended: "read" is documented as implicit (applications
obtain read access by requesting just the resource in the scope), but
the action-definition operation does not reject an explicit action
named "read": the name passes the charset check and, whenever the
per-resource lookup finds no existing action of that name, the
definition is accepted. -/
theorem C8_read_action_accepted (store : List ResourceAction) (resid : Nat) :
    valid_username "read" = true ∧
    (store.find? (fun a => a.name == "read" && a.resource == resid) = none →
      actionValidateName store resid none "read" = .ok ()) := by
  refine ⟨rfl, fun hfind => ?_⟩
  unfold actionValidateName
  rw [if_neg (by decide), hfind]

/-- Witness for the amended C8: with an empty action store, the explicit
action "read" under resource 7 is accepted. -/
theorem C8_read_action_accepted_witness :
    valid_username "read" = true ∧
    actionValidateName [] 7 none "read" = .ok () :=
  ⟨(C8_read_action_accepted [] 7).1, (C8_read_action_accepted [] 7).2 rfl⟩

/-- Counterexample to claim C9 at a concrete input: a client registration
with valid title, description and owner, no website, and every other
URL field absent is rejected (the website field carries the `Required`
validator), refuting the claim that every URL field is optional and
that absence of a URL field is never by itself a rejection. -/
theorem C9_website_required_counterexample :
    registerClientValidate ⟨"u1", []⟩ ⟨"T", "D", "u1", "", "", "", "", "", true⟩ =
      .error VErr.required :=
  rfl

/-- Claim C9 as amended: the website URL field is required (its absence
alone rejects the registration), while the four remaining URL fields
(redirect, notification, iframe, resource) are optional and their
absence is never by itself a rejection; every URL value that is present
must be a well-formed URI (TLD not required), otherwise the operation
rejects with `malformedURI`.  Stated for each of the five URL fields in
turn: an absent website rejects with `required`; a present malformed
website rejects with `malformedURI`; a present malformed redirect,
notification, iframe or resource URI, with the URL fields before it
passing, rejects with `malformedURI`; and when every URL field is
absent or well-formed the registration succeeds. -/
theorem C9_url_field_validation (actor : User) (inp : ClientInput) (r : Resolved)
    (ht : inp.title ≠ "") (hd : inp.description ≠ "")
    (hoe : inp.client_owner ≠ "")
    (ho : validate_client_owner actor inp.client_owner = .ok r) :
    (inp.website = "" → registerClientValidate actor inp = .error VErr.required) ∧
    (inp.website ≠ "" → wellFormedURI inp.website = false →
      registerClientValidate actor inp = .error VErr.malformedURI) ∧
    (wellFormedURI inp.website = true →
      inp.redirect_uri ≠ "" → wellFormedURI inp.redirect_uri = false →
      registerClientValidate actor inp = .error VErr.malformedURI) ∧
    (wellFormedURI inp.website = true →
      (inp.redirect_uri = "" ∨ wellFormedURI inp.redirect_uri = true) →
      inp.notification_uri ≠ "" → wellFormedURI inp.notification_uri = false →
      registerClientValidate actor inp = .error VErr.malformedURI) ∧
    (wellFormedURI inp.website = true →
      (inp.redirect_uri = "" ∨ wellFormedURI inp.redirect_uri = true) →
      (inp.notification_uri = "" ∨ wellFormedURI inp.notification_uri = true) →
      inp.iframe_uri ≠ "" → wellFormedURI inp.iframe_uri = false →
      registerClientValidate actor inp = .error VErr.malformedURI) ∧
    (wellFormedURI inp.website = true →
      (inp.redirect_uri = "" ∨ wellFormedURI inp.redirect_uri = true) →
      (inp.notification_uri = "" ∨ wellFormedURI inp.notification_uri = true) →
      (inp.iframe_uri = "" ∨ wellFormedURI inp.iframe_uri = true) →
      inp.resource_uri ≠ "" → wellFormedURI inp.resource_uri = false →
      registerClientValidate actor inp = .error VErr.malformedURI) ∧
    (wellFormedURI inp.website = true →
      (inp.redirect_uri = "" ∨ wellFormedURI inp.redirect_uri = true) →
      (inp.notification_uri = "" ∨ wellFormedURI inp.notification_uri = true) →
      (inp.iframe_uri = "" ∨ wellFormedURI inp.iframe_uri = true) →
      (inp.resource_uri = "" ∨ wellFormedURI inp.resource_uri = true) →
      registerClientValidate actor inp = .ok r) := by
  have hne : ∀ d : String, wellFormedURI d = true → d ≠ "" := by
    intro d h hd0
    rw [hd0] at h
    simp [wellFormedURI, splitScheme] at h
  have hopt : ∀ d : String, (d = "" ∨ wellFormedURI d = true) → optionalURL d = none := by
    intro d h
    by_cases hd0 : d = ""
    · simp [optionalURL, hd0]
    · rcases h with h | h
      · exact absurd h hd0
      · simp [optionalURL, hd0, h]
  have hoptf : ∀ d : String, d ≠ "" → wellFormedURI d = false →
      optionalURL d = some VErr.malformedURI := by
    intro d h1 h2
    simp [optionalURL, h1, h2]
  have hreq_ok : wellFormedURI inp.website = true → requiredURL inp.website = none := by
    intro hw
    simp [requiredURL, hne _ hw, hw]
  refine ⟨fun hw => ?_, fun hw1 hw2 => ?_, fun hw h1 h2 => ?_, fun hw h1 h2 h3 => ?_,
    fun hw h1 h2 h3 h4 => ?_, fun hw h1 h2 h3 h4 h5 => ?_, fun hw h1 h2 h3 h4 => ?_⟩ <;>
    unfold registerClientValidate <;>
    rw [if_neg ht, if_neg hd, if_neg hoe, ho]
  · have hr : requiredURL inp.website = some VErr.required := by
      simp [requiredURL, hw]
    rw [hr]
    rfl
  · have hr : requiredURL inp.website = some VErr.malformedURI := by
      simp [requiredURL, hw1, hw2]
    rw [hr]
    rfl
  · rw [hreq_ok hw, hoptf _ h1 h2]
    rfl
  · rw [hreq_ok hw, hopt _ h1, hoptf _ h2 h3]
    rfl
  · rw [hreq_ok hw, hopt _ h1, hopt _ h2, hoptf _ h3 h4]
    rfl
  · rw [hreq_ok hw, hopt _ h1, hopt _ h2, hopt _ h3, hoptf _ h4 h5]
    rfl
  · rw [hreq_ok hw, hopt _ h1, hopt _ h2, hopt _ h3, hopt _ h4]
    rfl

/-- Witness for the amended C9 at concrete inputs, one per part: no
website rejects with `required`; a malformed website, redirect,
notification, iframe or resource URI each rejects with `malformedURI`;
a well-formed website with every optional URL field absent succeeds. -/
theorem C9_url_field_validation_witness :
    registerClientValidate ⟨"u1", []⟩ ⟨"T", "D", "u1", "", "", "", "", "", true⟩ =
      .error VErr.required ∧
    registerClientValidate ⟨"u1", []⟩ ⟨"T", "D", "u1", "bad", "", "", "", "", true⟩ =
      .error VErr.malformedURI ∧
    registerClientValidate ⟨"u1", []⟩
      ⟨"T", "D", "u1", "http://localhost", "bad", "", "", "", true⟩ =
      .error VErr.malformedURI ∧
    registerClientValidate ⟨"u1", []⟩
      ⟨"T", "D", "u1", "http://localhost", "", "bad", "", "", true⟩ =
      .error VErr.malformedURI ∧
    registerClientValidate ⟨"u1", []⟩
      ⟨"T", "D", "u1", "http://localhost", "", "", "bad", "", true⟩ =
      .error VErr.malformedURI ∧
    registerClientValidate ⟨"u1", []⟩
      ⟨"T", "D", "u1", "http://localhost", "", "", "", "bad", true⟩ =
      .error VErr.malformedURI ∧
    registerClientValidate ⟨"u1", []⟩
      ⟨"T", "D", "u1", "http://localhost", "", "", "", "", true⟩ =
      .ok ⟨some ⟨"u1", []⟩, none⟩ :=
  ⟨(C9_url_field_validation ⟨"u1", []⟩ ⟨"T", "D", "u1", "", "", "", "", "", true⟩
      ⟨some ⟨"u1", []⟩, none⟩ (by decide) (by decide) (by decide) rfl).1 rfl,
   (C9_url_field_validation ⟨"u1", []⟩ ⟨"T", "D", "u1", "bad", "", "", "", "", true⟩
      ⟨some ⟨"u1", []⟩, none⟩ (by decide) (by decide) (by decide) rfl).2.1
      (by decide) rfl,
   (C9_url_field_validation ⟨"u1", []⟩
      ⟨"T", "D", "u1", "http://localhost", "bad", "", "", "", true⟩
      ⟨some ⟨"u1", []⟩, none⟩ (by decide) (by decide) (by decide) rfl).2.2.1
      rfl (by decide) rfl,
   (C9_url_field_validation ⟨"u1", []⟩
      ⟨"T", "D", "u1", "http://localhost", "", "bad", "", "", true⟩
      ⟨some ⟨"u1", []⟩, none⟩ (by decide) (by decide) (by decide) rfl).2.2.2.1
      rfl (Or.inl rfl) (by decide) rfl,
   (C9_url_field_validation ⟨"u1", []⟩
      ⟨"T", "D", "u1", "http://localhost", "", "", "bad", "", true⟩
      ⟨some ⟨"u1", []⟩, none⟩ (by decide) (by decide) (by decide) rfl).2.2.2.2.1
      rfl (Or.inl rfl) (Or.inl rfl) (by decide) rfl,
   (C9_url_field_validation ⟨"u1", []⟩
      ⟨"T", "D", "u1", "http://localhost", "", "", "", "bad", true⟩
      ⟨some ⟨"u1", []⟩, none⟩ (by decide) (by decide) (by decide) rfl).2.2.2.2.2.1
      rfl (Or.inl rfl) (Or.inl rfl) (Or.inl rfl) (by decide) rfl,
   (C9_url_field_validation ⟨"u1", []⟩
      ⟨"T", "D", "u1", "http://localhost", "", "", "", "", true⟩
      ⟨some ⟨"u1", []⟩, none⟩ (by decide) (by decide) (by decide) rfl).2.2.2.2.2.2
      rfl (Or.inl rfl) (Or.inl rfl) (Or.inl rfl) (Or.inl rfl)⟩

end Lastuser
